import Mathlib

/-!
Verification of the row-span grid reconstruction in
`src/dataproc/get_ethnicity.py` (`parse_bs_table`).

The function receives a BeautifulSoup table tag.  We embed the table as the
list of its `<tr>` rows, each row a list of cells tagged `<th>` or `<td>`,
each cell carrying its extracted text (`get_text()`) and its `rowspan`
attribute already converted by `int(...)` when present.  `get_text().strip()`
is modelled by `pyStrip`, which removes leading and trailing whitespace
characters.  List `pop` on an empty list and
out-of-range indexing raise Python `IndexError`; the final
`pd.DataFrame(data=row_data, columns=headers)` raises `ValueError` when a
built row's width disagrees with the number of header columns.
-/

/-- Tag of an HTML table cell: a header cell or a data cell. -/
inductive CellTag
  | th
  | td
deriving DecidableEq

/-- An HTML table cell: its tag, its extracted text, and its `rowspan`
attribute (already parsed to an integer when present). -/
structure Cell where
  tag : CellTag
  text : String
  rowspan : Option Int := none
deriving DecidableEq

/-- An HTML table: its `<tr>` rows in document order; the first row is the
header row, the rest are data rows. -/
structure HtmlTable where
  rows : List (List Cell)

/-- Python runtime errors the parsing code can raise: `IndexError` from
`list.pop(0)` / `row_data[-1][col_idx]`, `ValueError` from the
`pd.DataFrame` constructor on a column-count mismatch. -/
inductive PyErr
  | indexError
  | valueError
deriving DecidableEq

/-- Python's `str.strip()`: remove leading and trailing whitespace from a
string (written over the character list so that it evaluates by kernel
reduction). -/
def pyStrip (s : String) : String :=
  ⟨((s.data.dropWhile Char.isWhitespace).reverse.dropWhile
      Char.isWhitespace).reverse⟩

/-- Header cell constructor used by concrete test tables. -/
def thCell (s : String) : Cell := ⟨CellTag.th, s, none⟩

/-- Data cell without a `rowspan` attribute. -/
def tdCell (s : String) : Cell := ⟨CellTag.td, s, none⟩

/-- Data cell with a `rowspan` attribute. -/
def tdSpanCell (s : String) (n : Int) : Cell := ⟨CellTag.td, s, some n⟩

/-- Lines 39-40: `headers` is the stripped text of every `<th>` tag found
anywhere in the table, with empty strings removed afterwards. -/
def getHeaders (t : HtmlTable) : List String :=
  (((t.rows.flatMap id).filter fun c => c.tag == CellTag.th).map
      fun c => pyStrip c.text).filter fun h => h != ""

/-- Lines 68-69: a cell's contribution to `row_pattern` —
`int(td.attrs['rowspan'])` when the attribute is present, else `1`. -/
def tdPattern (c : Cell) : Int := c.rowspan.getD 1

/-- Lines 74-79: build `this_row_pattern` from `previous_pattern` when the
row supplies fewer cells than there are headers.  A column whose previous
count is `1` pops the next entry of `row_pattern` (IndexError when that list
is exhausted); any other count is decremented by one. -/
def carryPattern : List Int → List Int → Except PyErr (List Int)
  | [], _ => Except.ok []
  | n :: rest, rp =>
    if n = 1 then
      match rp with
      | [] => Except.error PyErr.indexError
      | x :: xs => (carryPattern rest xs).map fun tail => x :: tail
    else
      (carryPattern rest rp).map fun tail => (n - 1) :: tail

/-- Line 91: `row_data[-1][col_idx]` — the value of the last finished row at
`col_idx`; IndexError when `row_data` is empty or the index is out of
range. -/
def lastRowValue (rowData : List (List String)) (colIdx : Nat) :
    Except PyErr String :=
  match rowData.getLast? with
  | none => Except.error PyErr.indexError
  | some last =>
    match last.get? colIdx with
    | none => Except.error PyErr.indexError
    | some v => Except.ok v

/-- Lines 85-91: build `this_row`.  Per column of `previous_pattern`: a count
of `1` pops the next `<td>` and takes its stripped text (IndexError when the
cell list is exhausted); any other count copies the same column of the last
finished row. -/
def buildRow (rowData : List (List String)) :
    Nat → List Int → List Cell → Except PyErr (List String)
  | _, [], _ => Except.ok []
  | colIdx, p :: ps, tds =>
    if p = 1 then
      match tds with
      | [] => Except.error PyErr.indexError
      | c :: rest =>
        (buildRow rowData (colIdx + 1) ps rest).map fun tail =>
          pyStrip c.text :: tail
    else
      match lastRowValue rowData colIdx with
      | Except.error e => Except.error e
      | Except.ok v =>
        (buildRow rowData (colIdx + 1) ps tds).map fun tail => v :: tail

/-- One iteration of the loop at lines 61-95: extract the row's `<td>` cells,
compute `row_pattern`, then `this_row_pattern` (carrying from
`previous_pattern` exactly when the row has fewer cells than headers), then
`this_row`. -/
def processRow (headers : List String) (rowData : List (List String))
    (prevPattern : List Int) (row : List Cell) :
    Except PyErr (List String × List Int) :=
  let tds := row.filter fun c => c.tag == CellTag.td
  let rowPattern := tds.map tdPattern
  match (if rowPattern.length < headers.length then
          carryPattern prevPattern rowPattern
        else Except.ok rowPattern) with
  | Except.error e => Except.error e
  | Except.ok thisPattern =>
    match buildRow rowData 0 prevPattern tds with
    | Except.error e => Except.error e
    | Except.ok thisRow => Except.ok (thisRow, thisPattern)

/-- The whole data-row loop of lines 61-95, accumulating `row_data` and
carrying `previous_pattern` from one row to the next. -/
def parseLoop (headers : List String) :
    List (List Cell) → List (List String) → List Int →
    Except PyErr (List (List String))
  | [], rowData, _ => Except.ok rowData
  | row :: rest, rowData, prevPattern =>
    match processRow headers rowData prevPattern row with
    | Except.error e => Except.error e
    | Except.ok (thisRow, thisPattern) =>
      parseLoop headers rest (rowData ++ [thisRow]) thisPattern

/-- `parse_bs_table` (lines 13-101): headers from every `<th>`; data rows are
the `<tr>` list from index 1 on, with `previous_pattern` initialised to all
ones; finally `pd.DataFrame(data=row_data, columns=headers)`, which raises
`ValueError` when a built row's length differs from the header count. -/
def parse_bs_table (t : HtmlTable) :
    Except PyErr (List String × List (List String)) :=
  let headers := getHeaders t
  match parseLoop headers (t.rows.drop 1) []
      (List.replicate headers.length 1) with
  | Except.error e => Except.error e
  | Except.ok rowData =>
    if rowData.all fun r => r.length == headers.length then
      Except.ok (headers, rowData)
    else Except.error PyErr.valueError

/-- Table for the single full-column span example: header `[A, B]`, row 0 =
`[("x", span=3), "p"]`, row 1 = `["q"]`, row 2 = `["r"]`. -/
def exSingleSpan : HtmlTable :=
  ⟨[[thCell "A", thCell "B"],
    [tdSpanCell "x" 3, tdCell "p"], [tdCell "q"], [tdCell "r"]]⟩

/-- Table for the expiring-span example: header `[A, B]`, row 0 =
`[("x", span=2), "p"]`, row 1 = `["q"]`, row 2 = `["y", "r"]`. -/
def exShortSpan : HtmlTable :=
  ⟨[[thCell "A", thCell "B"],
    [tdSpanCell "x" 2, tdCell "p"], [tdCell "q"], [tdCell "y", tdCell "r"]]⟩

/-- Table with two simultaneously active spans of different lengths: header
`[A, B, C]`, row 0 = `[("a", span=3), "b", ("c", span=2)]`, row 1 = `["d"]`,
row 2 = `["e", "f"]`. -/
def exTwoSpans : HtmlTable :=
  ⟨[[thCell "A", thCell "B", thCell "C"],
    [tdSpanCell "a" 3, tdCell "b", tdSpanCell "c" 2],
    [tdCell "d"], [tdCell "e", tdCell "f"]]⟩

/-- Table with an empty-text spanning cell following a non-empty value in the
same column: header `[A, B]`, row 0 = `["a", "p"]`, row 1 =
`[("", span=2), "q"]`, row 2 = `["r"]`. -/
def exEmptySpan : HtmlTable :=
  ⟨[[thCell "A", thCell "B"],
    [tdCell "a", tdCell "p"],
    [tdSpanCell "" 2, tdCell "q"], [tdCell "r"]]⟩

/-- Table whose last data row supplies one cell more than the unowned
columns need: header `[A, B]`, row 0 = `[("x", span=2), "p"]`, row 1 =
`["q", "extra"]`. -/
def exLeftover : HtmlTable :=
  ⟨[[thCell "A", thCell "B"],
    [tdSpanCell "x" 2, tdCell "p"], [tdCell "q", tdCell "extra"]]⟩

/-- Table with width 3 whose only data row supplies 2 new cells while no
span is active (the spec's malformed-row example). -/
def exTooFew : HtmlTable :=
  ⟨[[thCell "A", thCell "B", thCell "C"], [tdCell "x", tdCell "y"]]⟩

/-- Table with no `<th>` at all (empty header) and one data row carrying a
cell. -/
def exNoHeader : HtmlTable := ⟨[[], [tdCell "a"]]⟩

/-- Table with a `rowspan="0"` cell: header `[A, B]`, row 0 =
`[("x", span=0), "p"]`, row 1 = `["q"]`, row 2 = `["r"]`. -/
def exZeroSpan : HtmlTable :=
  ⟨[[thCell "A", thCell "B"],
    [tdSpanCell "x" 0, tdCell "p"], [tdCell "q"], [tdCell "r"]]⟩

/-- Claim C2: for header `[A, B]` with row 0 = `[("x", span=3), "p"]`, row 1
= `["q"]`, row 2 = `["r"]`, reconstruction returns exactly the dense rows
`["x","p"], ["x","q"], ["x","r"]`: the spanning cell occupies column A on
its own row and its value is copied down into the next two rows, which omit
that cell. -/
theorem claim_C2_single_span :
    parse_bs_table exSingleSpan =
      Except.ok (["A", "B"], [["x", "p"], ["x", "q"], ["x", "r"]]) := rfl

/-- Claim C5: a span covers its declaring row plus the next `s - 1` rows and
then expires: with row 0 = `[("x", span=2), "p"]`, row 1 = `["q"]`, row 2 =
`["y", "r"]`, row 2's column-A value is `"y"` from its own first cell, not
`"x"` from the expired span. -/
theorem claim_C5_span_expires :
    parse_bs_table exShortSpan =
      Except.ok (["A", "B"], [["x", "p"], ["x", "q"], ["y", "r"]]) := rfl

/-- Claim C6: two simultaneously active spans in different columns are
independent: with a span of 3 on column A and a span of 2 on column C, each
column's remaining counter decrements separately, the shorter span expires
after row 1 without disturbing the longer one, and every covered row gets
the right value in every column. -/
theorem claim_C6_independent_spans :
    parse_bs_table exTwoSpans =
      Except.ok (["A", "B", "C"],
        [["a", "b", "c"], ["a", "d", "c"], ["a", "e", "f"]]) := rfl

/-- Claim C8: a spanning cell whose text is the empty string still populates
every covered row with the empty string — not a missing value, and not the
earlier non-empty value `"a"` from the same column further back. -/
theorem claim_C8_empty_span_carry :
    parse_bs_table exEmptySpan =
      Except.ok (["A", "B"], [["a", "p"], ["", "q"], ["", "r"]]) := rfl

/-- Claim C1, counterexample: a data row with a leftover unconsumed cell
(`"extra"` in row 1 of `exLeftover`, where column A is owned by an active
span) does not make reconstruction fail — the leftover cell is silently
discarded and a fully built table is returned, contradicting the claimed
`MalformedRowError`. -/
theorem claim_C1_counterexample :
    parse_bs_table exLeftover =
      Except.ok (["A", "B"], [["x", "p"], ["x", "q"]]) := rfl

/-- Claim C3, counterexample: with an empty header sequence the code does
not fail with any error — it returns a table with zero columns and one
(empty) row, contradicting the claimed `InvalidHeaderError`. -/
theorem claim_C3_counterexample :
    parse_bs_table exNoHeader = Except.ok ([], [[]]) := rfl

/-- Claim C9, counterexample: a cell with the non-positive span count
`rowspan="0"` is neither normalized to "no span" nor rejected: the code
silently returns a table in which the cell's value `"x"` is treated as an
active span and copied into column A of both later rows. -/
theorem claim_C9_counterexample :
    parse_bs_table exZeroSpan =
      Except.ok (["A", "B"], [["x", "p"], ["x", "q"], ["x", "r"]]) := rfl

/-- When the new-cell pattern list is shorter than an all-ones previous
pattern, the carry loop pops past its end: Python's `row_pattern.pop(0)`
raises IndexError. -/
theorem carryPattern_replicate_short (n : Nat) (rp : List Int)
    (h : rp.length < n) :
    carryPattern (List.replicate n 1) rp = Except.error PyErr.indexError := by
  induction n generalizing rp with
  | zero => exact absurd h (Nat.not_lt_zero _)
  | succ n ih =>
    rw [List.replicate_succ]
    unfold carryPattern
    rw [if_pos rfl]
    cases rp with
    | nil => rfl
    | cons x xs =>
      show Except.map (fun tail => x :: tail)
        (carryPattern (List.replicate n 1) xs) = Except.error PyErr.indexError
      rw [ih xs (by simp only [List.length_cons] at h; omega)]
      rfl

/-- Claim C1, amended: a data row that supplies fewer new cells than the
unowned columns require makes reconstruction fail with a plain Python
`IndexError` (a pop from an exhausted list), not with a `MalformedRowError`
carrying the row index; here stated for the first data row, where every
column is unowned.  (A row with leftover cells, dually, raises nothing at
all: see the counterexample.) -/
theorem claim_C1_amended (t : HtmlTable) (r0 r1 : List Cell)
    (rest : List (List Cell))
    (hrows : t.rows = r0 :: r1 :: rest)
    (hfew : (r1.filter fun c => c.tag == CellTag.td).length <
      (getHeaders t).length) :
    parse_bs_table t = Except.error PyErr.indexError := by
  have htds : ((r1.filter fun c => c.tag == CellTag.td).map tdPattern).length <
      (getHeaders t).length := by
    rw [List.length_map]; exact hfew
  unfold parse_bs_table parseLoop processRow
  rw [hrows]
  simp only [List.drop_succ_cons, List.drop_zero]
  rw [if_pos htds, carryPattern_replicate_short _ _ htds]

/-- Claim C1, witness: the spec's own malformed-row example — header width
3, single data row supplying 2 new cells with no active span — hits the
amended behaviour: a bare IndexError. -/
theorem claim_C1_witness :
    parse_bs_table exTooFew = Except.error PyErr.indexError :=
  claim_C1_amended exTooFew [thCell "A", thCell "B", thCell "C"]
    [tdCell "x", tdCell "y"] [] rfl (by decide)

/-- Claim C3, amended: an empty header does not raise any error — there is
no `InvalidHeaderError` in the code.  With an empty header and a single data
row the call returns a table with zero columns and one empty row; the data
row's cells are silently ignored. -/
theorem claim_C3_amended (t : HtmlTable) (r0 r1 : List Cell)
    (hhdr : getHeaders t = [])
    (hrows : t.rows = [r0, r1]) :
    parse_bs_table t = Except.ok ([], [[]]) := by
  unfold parse_bs_table parseLoop processRow
  rw [hrows, hhdr]
  simp only [List.drop_succ_cons, List.drop_zero, List.length_nil,
    List.replicate_zero]
  rw [if_neg (Nat.not_lt_zero _)]
  rfl

/-- Claim C3, witness: the amended behaviour at the concrete header-less
table `exNoHeader`. -/
theorem claim_C3_witness : parse_bs_table exNoHeader = Except.ok ([], [[]]) :=
  claim_C3_amended exNoHeader [] [tdCell "a"] rfl rfl

/-- Building a row against an all-ones previous pattern pops every cell in
order and strips it: no column is owned by a span. -/
theorem buildRow_replicate_one (rowData : List (List String)) (n : Nat) :
    ∀ (colIdx : Nat) (tds : List Cell), tds.length = n →
    buildRow rowData colIdx (List.replicate n 1) tds =
      Except.ok (tds.map fun c => pyStrip c.text) := by
  induction n with
  | zero =>
    intro colIdx tds h
    rw [List.length_eq_zero] at h
    subst h
    rfl
  | succ n ih =>
    intro colIdx tds h
    cases tds with
    | nil => simp at h
    | cons c rest =>
      rw [List.replicate_succ]
      unfold buildRow
      rw [if_pos rfl]
      show Except.map (fun tail => pyStrip c.text :: tail)
        (buildRow rowData (colIdx + 1) (List.replicate n 1) rest) = _
      rw [ih (colIdx + 1) rest (by simp only [List.length_cons] at h; omega)]
      rfl

/-- A row of cells that all have `rowspan` absent or `1` yields an all-ones
`row_pattern`. -/
theorem map_tdPattern_ones (r : List Cell)
    (h : ∀ c ∈ r, c.rowspan = none ∨ c.rowspan = some 1) :
    r.map tdPattern = List.replicate r.length 1 := by
  induction r with
  | nil => rfl
  | cons c rest ih =>
    have hc : tdPattern c = 1 := by
      rcases h c (List.mem_cons_self _ _) with h1 | h1 <;> simp [tdPattern, h1]
    rw [List.map_cons, hc, List.length_cons, List.replicate_succ,
      ih fun c hm => h c (List.mem_cons_of_mem _ hm)]

/-- Processing one data row with no active span and no new span consumes the
cells verbatim (stripped) and leaves every column unowned. -/
theorem processRow_noSpan (headers : List String)
    (rowData : List (List String)) (r : List Cell)
    (hlen : r.length = headers.length)
    (htag : ∀ c ∈ r, c.tag = CellTag.td)
    (hspan : ∀ c ∈ r, c.rowspan = none ∨ c.rowspan = some 1) :
    processRow headers rowData (List.replicate headers.length 1) r =
      Except.ok (r.map fun c => pyStrip c.text,
        List.replicate headers.length 1) := by
  have hfil : (r.filter fun c => c.tag == CellTag.td) = r :=
    List.filter_eq_self.mpr fun c hc => by
      rw [beq_iff_eq]; exact htag c hc
  simp only [processRow]
  rw [hfil, map_tdPattern_ones r hspan, hlen]
  rw [List.length_replicate, if_neg (lt_irrefl _)]
  rw [buildRow_replicate_one rowData headers.length 0 r hlen]

/-- Running the data-row loop over span-free rows of full width appends each
row's stripped texts and keeps the all-ones pattern. -/
theorem parseLoop_noSpan (headers : List String)
    (drows : List (List Cell)) :
    ∀ (acc : List (List String)),
    (∀ r ∈ drows, r.length = headers.length ∧ ∀ c ∈ r,
      c.tag = CellTag.td ∧ (c.rowspan = none ∨ c.rowspan = some 1)) →
    parseLoop headers drows acc (List.replicate headers.length 1) =
      Except.ok (acc ++ drows.map fun r => r.map fun c => pyStrip c.text) := by
  induction drows with
  | nil =>
    intro acc _
    simp [parseLoop]
  | cons r rest ih =>
    intro acc h
    have hr := h r (List.mem_cons_self _ _)
    unfold parseLoop
    rw [processRow_noSpan headers acc r hr.1
      (fun c hc => (hr.2 c hc).1) (fun c hc => (hr.2 c hc).2)]
    show parseLoop headers rest (acc ++ [r.map fun c => pyStrip c.text])
      (List.replicate headers.length 1) = _
    rw [ih _ fun r hm => h r (List.mem_cons_of_mem _ hm)]
    simp

/-- Claim C4: for a header of width `W ≥ 1` and data rows that each have
exactly `W` cells, all data cells, all with span `1` or no span attribute,
reconstruction is a no-op: it returns the rows verbatim (their texts, which
carry no surrounding whitespace, in their given order and width). -/
theorem claim_C4_no_span_identity (t : HtmlTable) (r0 : List Cell)
    (drows : List (List Cell)) (W : Nat)
    (hrows : t.rows = r0 :: drows)
    (hW : (getHeaders t).length = W) (_hW1 : 1 ≤ W)
    (hcond : ∀ r ∈ drows, r.length = W ∧ ∀ c ∈ r,
      c.tag = CellTag.td ∧ (c.rowspan = none ∨ c.rowspan = some 1) ∧
      pyStrip c.text = c.text) :
    parse_bs_table t =
      Except.ok (getHeaders t, drows.map fun r => r.map fun c => c.text) := by
  unfold parse_bs_table
  rw [hrows]
  simp only [List.drop_succ_cons, List.drop_zero]
  rw [parseLoop_noSpan (getHeaders t) drows []
    (fun r hm => ⟨by rw [(hcond r hm).1, hW], fun c hc =>
      ⟨((hcond r hm).2 c hc).1, ((hcond r hm).2 c hc).2.1⟩⟩)]
  have hmap : (drows.map fun r => r.map fun c => pyStrip c.text) =
      drows.map fun r => r.map fun c => c.text :=
    List.map_congr_left fun r hm =>
      List.map_congr_left fun c hc => ((hcond r hm).2 c hc).2.2
  show (if (drows.map fun r => r.map fun c => pyStrip c.text).all
      (fun r => r.length == (getHeaders t).length) = true then _ else _) = _
  rw [hmap]
  rw [if_pos ?hall]
  case hall =>
    rw [List.all_eq_true]
    intro r hm
    rw [List.mem_map] at hm
    obtain ⟨r', hm', rfl⟩ := hm
    rw [beq_iff_eq, List.length_map, (hcond r' hm').1, hW]
  rw [List.nil_append]

/-- Span-free two-by-two table used to witness the no-op reconstruction. -/
def exPlain : HtmlTable :=
  ⟨[[thCell "A", thCell "B"],
    [tdCell "a", tdCell "b"], [tdCell "c", tdCell "d"]]⟩

/-- Claim C4, witness: the no-op reconstruction at a concrete span-free
two-by-two table. -/
theorem claim_C4_witness :
    parse_bs_table exPlain =
      Except.ok (getHeaders exPlain, [["a", "b"], ["c", "d"]]) :=
  claim_C4_no_span_identity exPlain [thCell "A", thCell "B"]
    [[tdCell "a", tdCell "b"], [tdCell "c", tdCell "d"]] 2 rfl rfl
    (by omega) (by decide)

/-- Each loop iteration appends exactly one built row, whatever the row's
contents: a successful run returns one dense row per data row. -/
theorem parseLoop_ok_length (headers : List String)
    (drows : List (List Cell)) :
    ∀ (acc : List (List String)) (pat : List Int) (out : List (List String)),
    parseLoop headers drows acc pat = Except.ok out →
    out.length = acc.length + drows.length := by
  induction drows with
  | nil =>
    intro acc pat out h
    unfold parseLoop at h
    cases h
    simp
  | cons r rest ih =>
    intro acc pat out h
    unfold parseLoop at h
    cases hp : processRow headers acc pat r with
    | error e => rw [hp] at h; cases h
    | ok pr =>
      obtain ⟨tr, tp⟩ := pr
      rw [hp] at h
      have := ih (acc ++ [tr]) tp out h
      simp only [List.length_append, List.length_cons, List.length_nil]
        at this ⊢
      omega

/-- Claim C7: whenever reconstruction returns normally, the output has
exactly one dense row per data row (the `<tr>` list minus the header row)
and every dense row has exactly the header width. -/
theorem claim_C7_shape (t : HtmlTable) (hdr : List String)
    (rows : List (List String))
    (h : parse_bs_table t = Except.ok (hdr, rows)) :
    rows.length = (t.rows.drop 1).length ∧
      ∀ r ∈ rows, r.length = hdr.length := by
  simp only [parse_bs_table] at h
  split at h
  · cases h
  · rename_i rowData hp
    split at h
    · rename_i hall
      rw [Except.ok.injEq, Prod.mk.injEq] at h
      obtain ⟨h1, h2⟩ := h
      subst h1
      subst h2
      refine ⟨?_, ?_⟩
      · have := parseLoop_ok_length (getHeaders t) (t.rows.drop 1) []
          (List.replicate (getHeaders t).length 1) rowData hp
        simpa using this
      · intro r hm
        have := (List.all_eq_true.mp hall) r hm
        rwa [beq_iff_eq] at this
    · cases h

/-- Claim C7, witness: the shape invariant instantiated at the concrete
single-span table, whose reconstruction succeeds. -/
theorem claim_C7_witness :
    ([["x", "p"], ["x", "q"], ["x", "r"]] : List (List String)).length =
        (exSingleSpan.rows.drop 1).length ∧
      ∀ r ∈ ([["x", "p"], ["x", "q"], ["x", "r"]] : List (List String)),
        r.length = (["A", "B"] : List String).length :=
  claim_C7_shape exSingleSpan ["A", "B"]
    [["x", "p"], ["x", "q"], ["x", "r"]] rfl

/-- Table whose first data-row cell declares a non-positive span count `k`:
header `[A, B]`, row 0 = `[("x", span=k), "p"]`, row 1 = `["q"]`, row 2 =
`["r"]`. -/
def exNonPosSpan (k : Int) : HtmlTable :=
  ⟨[[thCell "A", thCell "B"],
    [tdSpanCell "x" k, tdCell "p"], [tdCell "q"], [tdCell "r"]]⟩

/-- Unfolding one step of the data-row loop when the row's processing
succeeds. -/
theorem parseLoop_cons_ok (headers : List String) (row : List Cell)
    (rest : List (List Cell)) (acc : List (List String)) (pat : List Int)
    (tr : List String) (tp : List Int)
    (h : processRow headers acc pat row = Except.ok (tr, tp)) :
    parseLoop headers (row :: rest) acc pat =
      parseLoop headers rest (acc ++ [tr]) tp := by
  rw [parseLoop, h]

/-- Claim C9, amended: a cell with a non-positive span count is neither
normalized to "no span" nor rejected with an error.  Its column's remaining
counter goes `k, k - 1, k - 2, …` and never equals `1` again, so the code
silently treats the cell as an active span and copies its value into the
column of every subsequent row. -/
theorem claim_C9_amended (k : Int) (hk : k ≤ 0) :
    parse_bs_table (exNonPosSpan k) =
      Except.ok (["A", "B"], [["x", "p"], ["x", "q"], ["x", "r"]]) := by
  have h1 : ¬(k = 1) := by omega
  have h2 : ¬(k - 1 = 1) := by omega
  have hc1 : carryPattern [k, 1] [(1 : Int)] = Except.ok [k - 1, 1] := by
    unfold carryPattern
    rw [if_neg h1]
    rfl
  have hc2 : carryPattern [k - 1, 1] [(1 : Int)] =
      Except.ok [k - 1 - 1, 1] := by
    unfold carryPattern
    rw [if_neg h2]
    rfl
  have hb1 : buildRow [["x", "p"]] 0 [k, 1] [tdCell "q"] =
      Except.ok ["x", "q"] := by
    unfold buildRow
    rw [if_neg h1]
    rfl
  have hb2 : buildRow [["x", "p"], ["x", "q"]] 0 [k - 1, 1] [tdCell "r"] =
      Except.ok ["x", "r"] := by
    unfold buildRow
    rw [if_neg h2]
    rfl
  have hp1 : processRow ["A", "B"] [] [1, 1]
      [tdSpanCell "x" k, tdCell "p"] = Except.ok (["x", "p"], [k, 1]) := rfl
  have hp2 : processRow ["A", "B"] [["x", "p"]] [k, 1] [tdCell "q"] =
      Except.ok (["x", "q"], [k - 1, 1]) := by
    show (match carryPattern [k, 1] [(1 : Int)] with
      | Except.error e => Except.error e
      | Except.ok thisPattern =>
        match buildRow [["x", "p"]] 0 [k, 1] [tdCell "q"] with
        | Except.error e => Except.error e
        | Except.ok thisRow => Except.ok (thisRow, thisPattern)) = _
    rw [hc1, hb1]
  have hp3 : processRow ["A", "B"] [["x", "p"], ["x", "q"]] [k - 1, 1]
      [tdCell "r"] = Except.ok (["x", "r"], [k - 1 - 1, 1]) := by
    show (match carryPattern [k - 1, 1] [(1 : Int)] with
      | Except.error e => Except.error e
      | Except.ok thisPattern =>
        match buildRow [["x", "p"], ["x", "q"]] 0 [k - 1, 1] [tdCell "r"] with
        | Except.error e => Except.error e
        | Except.ok thisRow => Except.ok (thisRow, thisPattern)) = _
    rw [hc2, hb2]
  have hloop : parseLoop ["A", "B"]
      [[tdSpanCell "x" k, tdCell "p"], [tdCell "q"], [tdCell "r"]] []
      [1, 1] = Except.ok [["x", "p"], ["x", "q"], ["x", "r"]] := by
    rw [parseLoop_cons_ok _ _ _ _ _ _ _ hp1]
    simp only [List.nil_append]
    rw [parseLoop_cons_ok _ _ _ _ _ _ _ hp2]
    simp only [List.cons_append, List.nil_append]
    rw [parseLoop_cons_ok _ _ _ _ _ _ _ hp3]
    rfl
  show (match parseLoop ["A", "B"]
      [[tdSpanCell "x" k, tdCell "p"], [tdCell "q"], [tdCell "r"]] []
      [1, 1] with
    | Except.error e => Except.error e
    | Except.ok rowData =>
      if rowData.all fun r => r.length == 2 then
        Except.ok (["A", "B"], rowData)
      else Except.error PyErr.valueError) = _
  rw [hloop]
  rfl

/-- Claim C9, witness: the amended behaviour at the concrete span count `0`
(the spec's `rowspan="0"` example). -/
theorem claim_C9_witness :
    parse_bs_table (exNonPosSpan 0) =
      Except.ok (["A", "B"], [["x", "p"], ["x", "q"], ["x", "r"]]) :=
  claim_C9_amended 0 (by decide)

/-- The header-harvesting of lines 39-40 as a function of the flattened cell
list: keep `<th>` cells, strip their text, drop empties. -/
def headerCells (l : List Cell) : List String :=
  ((l.filter fun c => c.tag == CellTag.th).map fun c => pyStrip c.text).filter
    fun h => h != ""

/-- `getHeaders` only depends on the flattened cell sequence of the table. -/
theorem getHeaders_eq_headerCells (t : HtmlTable) :
    getHeaders t = headerCells (t.rows.flatMap id) := rfl

/-- Header harvesting distributes over concatenation of cell sequences. -/
theorem headerCells_append (a b : List Cell) :
    headerCells (a ++ b) = headerCells a ++ headerCells b := by
  simp [headerCells, List.filter_append, List.map_append]

/-- A `<th>` cell with non-empty stripped text contributes exactly its
stripped text to the harvested header. -/
theorem headerCells_cons_th (c : Cell) (l : List Cell)
    (hc : c.tag = CellTag.th) (hne : pyStrip c.text ≠ "") :
    headerCells (c :: l) = pyStrip c.text :: headerCells l := by
  simp [headerCells, List.filter_cons, hc, hne]

/-- Claim C10: the header is harvested from every non-empty `<th>` anywhere
in the table while data rows consume only `<td>` tags, so a non-empty `<th>`
cell `c` sitting inside a data row (the table also satisfies: that row is
among the rows from the second `<tr>` onward) contributes its text to the
header — making the width one larger than for the table `t'` without `c` —
and is invisible to that row's data-cell stream. -/
theorem claim_C10_th_in_data_rows (t t' : HtmlTable)
    (pre post : List (List Cell)) (r1 r2 : List Cell) (c : Cell)
    (hpre : pre ≠ [])
    (hc : c.tag = CellTag.th)
    (hne : pyStrip c.text ≠ "")
    (ht : t.rows = pre ++ (r1 ++ c :: r2) :: post)
    (ht' : t'.rows = pre ++ (r1 ++ r2) :: post) :
    (r1 ++ c :: r2) ∈ t.rows.drop 1 ∧
      pyStrip c.text ∈ getHeaders t ∧
      (getHeaders t).length = (getHeaders t').length + 1 ∧
      ((r1 ++ c :: r2).filter fun x => x.tag == CellTag.td) =
        ((r1 ++ r2).filter fun x => x.tag == CellTag.td) := by
  obtain ⟨p0, pre', rfl⟩ := List.exists_cons_of_ne_nil hpre
  refine ⟨?_, ?_, ?_, ?_⟩
  · rw [ht]
    simp
  · rw [getHeaders_eq_headerCells, ht]
    simp [List.flatMap_append, List.flatMap_cons, headerCells_append,
      headerCells_cons_th, hc, hne]
  · rw [getHeaders_eq_headerCells t, getHeaders_eq_headerCells t', ht, ht']
    simp [List.flatMap_append, List.flatMap_cons, headerCells_append,
      headerCells_cons_th, hc, hne, List.length_append]
    omega
  · have hcd : (c.tag == CellTag.td) = false := by rw [hc]; rfl
    simp [List.filter_append, List.filter_cons, hcd]

/-- Claim C10, witness: a concrete `<th>` cell `"X"` inside the only data
row is harvested into the header, raises the width from 1 to 2, and is
absent from that row's data-cell stream. -/
theorem claim_C10_witness :
    ([tdCell "v", thCell "X", tdCell "w"] ∈
        (⟨[[thCell "H"], [tdCell "v", thCell "X", tdCell "w"]]⟩ :
          HtmlTable).rows.drop 1) ∧
      pyStrip "X" ∈
        getHeaders ⟨[[thCell "H"], [tdCell "v", thCell "X", tdCell "w"]]⟩ ∧
      (getHeaders
          ⟨[[thCell "H"], [tdCell "v", thCell "X", tdCell "w"]]⟩).length =
        (getHeaders ⟨[[thCell "H"], [tdCell "v", tdCell "w"]]⟩).length + 1 ∧
      ([tdCell "v", thCell "X", tdCell "w"].filter
          fun x => x.tag == CellTag.td) =
        ([tdCell "v", tdCell "w"].filter fun x => x.tag == CellTag.td) :=
  claim_C10_th_in_data_rows
    ⟨[[thCell "H"], [tdCell "v", thCell "X", tdCell "w"]]⟩
    ⟨[[thCell "H"], [tdCell "v", tdCell "w"]]⟩
    [[thCell "H"]] [] [tdCell "v"] [tdCell "w"] (thCell "X")
    (by decide) rfl (by decide) rfl rfl
